import Mathlib

/-!
Verification of the Roku media-player integration's state-derivation and
command-dispatch logic (custom_components/roku: media_player.py, remote.py,
__init__.py).

The snapshot data model mirrors the coordinator data object consumed by the
entities: power state (standby flag), active app, installed app list, active
media, and active TV channel.  Commands are embedded as pure functions from
their inputs (and the current snapshot where the handler reads it) to the list
of outbound effects they perform, in order: vendor-client calls (remote key
sends, app launches, channel tunes, searches), coordinator refresh requests,
and log emissions.
-/

/-- Power state of the device (`coordinator.data.state`). -/
structure StateInfo where
  standby : Bool
deriving DecidableEq

/-- The active application (`coordinator.data.app`): optional name, optional
app id, and the screensaver flag.  A `none` name or empty-string name is
falsy in the source's truthiness tests. -/
structure ActiveApp where
  name : Option String
  app_id : Option String
  screensaver : Bool
deriving DecidableEq

/-- An entry of the installed-application list (`coordinator.data.apps`).
The source sorts these entries by `name` and launches by `app_id`, so both
fields are concrete strings here. -/
structure InstalledApp where
  name : String
  app_id : String
deriving DecidableEq

/-- Active media info (`coordinator.data.media`): paused and live flags,
duration and position in seconds, and the position timestamp (`media.at`,
modelled as an opaque integer). -/
structure MediaState where
  paused : Bool
  live : Bool
  duration : Int
  position : Int
  updated_at : Int
deriving DecidableEq

/-- Active TV channel info (`coordinator.data.channel`). -/
structure ChannelState where
  number : String
  name : Option String
  program_title : Option String
deriving DecidableEq

/-- The immutable per-poll device snapshot handed to entities by the
coordinator. -/
structure Snapshot where
  state : StateInfo
  app : Option ActiveApp
  apps : List InstalledApp
  media : Option MediaState
  channel : Option ChannelState
deriving DecidableEq

/-- Host-platform state constant. -/
def STATE_STANDBY : String := "standby"

/-- Host-platform state constant. -/
def STATE_IDLE : String := "idle"

/-- Host-platform state constant. -/
def STATE_HOME : String := "home"

/-- Host-platform state constant. -/
def STATE_PAUSED : String := "paused"

/-- Host-platform state constant. -/
def STATE_PLAYING : String := "playing"

/-- Host-platform state constant. -/
def STATE_ON : String := "on"

/-- Python truthiness of an optional string: `None` and `""` are falsy. -/
def nameTruthy : Option String → Bool
  | none => false
  | some s => s ≠ ""

/-- Embeds `RokuMediaPlayer.state` (media_player.py lines 116-142): the derived
playback state, translated guard by guard from the source's early returns. -/
def state (s : Snapshot) : Option String :=
  if s.state.standby then some STATE_STANDBY
  else
    match s.app with
    | none => none
    | some a =>
      if a.name == some "Power Saver" || a.screensaver then some STATE_IDLE
      else if a.name == some "Roku" then some STATE_HOME
      else
        match s.media with
        | some m => if m.paused then some STATE_PAUSED else some STATE_PLAYING
        | none => if nameTruthy a.name then some STATE_ON else none

/-- Written from the spec's words (§4.1 playback state): precedence order,
first match wins — (1) standby; (2) no active-app data → unknown;
(3) power-saver screensaver by name, or screensaver flag → idle;
(4) home launcher by name → home; (5) media present and paused → paused;
(5b) media present, not paused → playing; (6) app has a name → on;
(7) otherwise unknown. -/
def stateSpec (s : Snapshot) : Option String :=
  if s.state.standby = true then some "standby"
  else match s.app with
    | none => none
    | some a =>
      if a.name = some "Power Saver" ∨ a.screensaver = true then some "idle"
      else if a.name = some "Roku" then some "home"
      else match s.media with
        | some m =>
          if m.paused = true then some "paused" else some "playing"
        | none =>
          if a.name ≠ none ∧ a.name ≠ some "" then some "on" else none

/-- Embeds `RokuMediaPlayer.app_id` (media_player.py lines 171-177): the id of the
current running app, `None` when there is no active-app data. -/
def app_id (s : Snapshot) : Option String :=
  match s.app with
  | some a => a.app_id
  | none => none

/-- Embeds `RokuMediaPlayer.app_name` (media_player.py lines 163-169). -/
def app_name (s : Snapshot) : Option String :=
  match s.app with
  | some a => a.name
  | none => none

/-- Embeds `RokuMediaPlayer._media_playback_trackable` (media_player.py lines
101-106): there is enough media data to track playback. -/
def _media_playback_trackable (s : Snapshot) : Bool :=
  match s.media with
  | none => false
  | some m => if m.live then false else decide (m.duration > 0)

/-- Embeds `RokuMediaPlayer.media_duration` (media_player.py lines 201-207). -/
def media_duration (s : Snapshot) : Option Int :=
  if _media_playback_trackable s then
    match s.media with
    | some m => some m.duration
    | none => none
  else none

/-- Embeds `RokuMediaPlayer.media_position` (media_player.py lines 209-215). -/
def media_position (s : Snapshot) : Option Int :=
  if _media_playback_trackable s then
    match s.media with
    | some m => some m.position
    | none => none
  else none

/-- Embeds `RokuMediaPlayer.media_position_updated_at` (media_player.py lines
217-223): the timestamp at which the reported position was valid. -/
def media_position_updated_at (s : Snapshot) : Option Int :=
  if _media_playback_trackable s then
    match s.media with
    | some m => some m.updated_at
    | none => none
  else none

/-- Embeds `RokuMediaPlayer.media_title` (media_player.py lines 190-199): the
program title of the tuned channel, only for the TV-tuner input. -/
def media_title (s : Snapshot) : Option String :=
  if app_id s ≠ some "tvinput.dtv" ∨ s.channel = none then none
  else
    match s.channel with
    | some c =>
      match c.program_title with
      | some t => some t
      | none => none
    | none => none

/-- Lexicographic comparison of character lists by code point — the order
Python's default string comparison uses. -/
def charListLe : List Char → List Char → Bool
  | [], _ => true
  | _ :: _, [] => false
  | a :: as, b :: bs =>
    if a < b then true
    else if b < a then false
    else charListLe as bs

/-- Python's default ascending string order (lexicographic by code
point). -/
def strLe (a b : String) : Bool :=
  charListLe a.data b.data

/-- Embeds `RokuMediaPlayer.source_list` (media_player.py lines 233-236):
`["Home"] + sorted(app.name for app in apps)`, with Python's ascending
code-point string order. -/
def source_list (s : Snapshot) : List String :=
  "Home" :: (s.apps.map (fun a => a.name)).mergeSort strLe

/-- An outbound effect performed by a command handler, in program order:
vendor-client calls (`roku.remote`, `roku.launch`, `roku.tune`,
`roku.search`), coordinator refresh requests, and log emissions.  `launch`
carries the optional URL-escaped `contentId` deep-link parameter. -/
inductive Effect where
  | remote (key : String)
  | launch (appId : String) (contentId : Option String)
  | tune (channel : String)
  | search (keyword : String)
  | requestRefresh
  | logError
  | logInfo
deriving DecidableEq

/-- Number of coordinator refresh requests in an effect list. -/
def countRefresh (effects : List Effect) : Nat :=
  effects.countP (fun e =>
    match e with
    | Effect.requestRefresh => true
    | _ => false)

/-- Whether an effect is a vendor-client call. -/
def isVendorCall : Effect → Bool
  | Effect.remote _ => true
  | Effect.launch _ _ => true
  | Effect.tune _ => true
  | Effect.search _ => true
  | _ => false

/-- Host-platform media-type constant. -/
def MEDIA_TYPE_APP : String := "app"

/-- Host-platform media-type constant. -/
def MEDIA_TYPE_CHANNEL : String := "channel"

/-- Host-platform constant `FORMAT_CONTENT_TYPE[HLS_PROVIDER]`, the content
type of a side-loaded HLS stream. -/
def HLS_CONTENT_TYPE : String := "application/vnd.apple.mpegurl"

/-- Python `str.split(sep)` for a one-character separator, on character
lists: splitting an empty string yields one empty part, and consecutive
separators yield empty parts. -/
def splitOnChar (sep : Char) : List Char → List (List Char)
  | [] => [[]]
  | c :: rest =>
    let r := splitOnChar sep rest
    if c = sep then [] :: r
    else
      match r with
      | [] => [[c]]
      | h :: t => (c :: h) :: t

/-- Python `str.split(sep)` for a one-character separator. -/
def pySplit (s : String) (sep : Char) : List String :=
  (splitOnChar sep s.data).map String.mk

/-- Python `str.strip()`: drop whitespace from both ends. -/
def pyStrip (s : String) : String :=
  String.mk
    (((s.data.dropWhile Char.isWhitespace).reverse.dropWhile
      Char.isWhitespace).reverse)

/-- A character urllib's `quote` keeps verbatim when `safe=""`: ASCII
letters, digits, and `_.-~`. -/
def isUrlSafe (c : Char) : Bool :=
  (('a' ≤ c && c ≤ 'z') || ('A' ≤ c && c ≤ 'Z') || ('0' ≤ c && c ≤ '9')
    || c = '_' || c = '.' || c = '-' || c = '~')

/-- Uppercase hexadecimal digit for a value below 16. -/
def hexDigit (n : Nat) : Char :=
  if n < 10 then Char.ofNat (48 + n) else Char.ofNat (55 + n)

/-- The UTF-8 encoding of a character, as byte values. -/
def utf8Bytes (c : Char) : List Nat :=
  let n := c.toNat
  if n < 128 then [n]
  else if n < 2048 then [192 + n / 64, 128 + n % 64]
  else if n < 65536 then [224 + n / 4096, 128 + (n / 64) % 64, 128 + n % 64]
  else [240 + n / 262144, 128 + (n / 4096) % 64, 128 + (n / 64) % 64,
    128 + n % 64]

/-- Percent-encoding of one byte, `%XX` with uppercase hex. -/
def percentEncode (b : Nat) : List Char :=
  ['%', hexDigit (b / 16), hexDigit (b % 16)]

/-- urllib `quote(s, safe="")`: keep unreserved characters, percent-encode
every UTF-8 byte of the rest. -/
def urlQuote (s : String) : String :=
  String.mk (s.data.foldr
    (fun c acc =>
      if isUrlSafe c then c :: acc else (utf8Bytes c).flatMap percentEncode ++ acc)
    [])

/-- Embeds `RokuMediaPlayer.async_turn_on` (media_player.py lines 292-296). -/
def turnOnEffects : List Effect :=
  [Effect.remote "poweron", Effect.requestRefresh]

/-- Embeds `RokuMediaPlayer.async_turn_off` (media_player.py lines 298-302). -/
def turnOffEffects : List Effect :=
  [Effect.remote "poweroff", Effect.requestRefresh]

/-- Embeds `RokuMediaPlayer.async_media_pause` (media_player.py lines 304-309):
guarded by `self.state not in (STATE_STANDBY, STATE_PAUSED)`. -/
def mediaPauseEffects (s : Snapshot) : List Effect :=
  if ¬(state s = some STATE_STANDBY ∨ state s = some STATE_PAUSED) then
    [Effect.remote "play", Effect.requestRefresh]
  else []

/-- Embeds `RokuMediaPlayer.async_media_play` (media_player.py lines 311-316). -/
def mediaPlayEffects (s : Snapshot) : List Effect :=
  if ¬(state s = some STATE_STANDBY ∨ state s = some STATE_PLAYING) then
    [Effect.remote "play", Effect.requestRefresh]
  else []

/-- Embeds `RokuMediaPlayer.async_media_play_pause` (media_player.py lines
318-323). -/
def mediaPlayPauseEffects (s : Snapshot) : List Effect :=
  if state s ≠ some STATE_STANDBY then
    [Effect.remote "play", Effect.requestRefresh]
  else []

/-- Embeds `RokuMediaPlayer.async_media_previous_track` (media_player.py lines
325-329). -/
def previousTrackEffects : List Effect :=
  [Effect.remote "reverse", Effect.requestRefresh]

/-- Embeds `RokuMediaPlayer.async_media_next_track` (media_player.py lines
331-335). -/
def nextTrackEffects : List Effect :=
  [Effect.remote "forward", Effect.requestRefresh]

/-- Embeds `RokuMediaPlayer.async_mute_volume` (media_player.py lines 337-341). -/
def muteVolumeEffects : List Effect :=
  [Effect.remote "volume_mute", Effect.requestRefresh]

/-- Embeds `RokuMediaPlayer.async_volume_up` (media_player.py lines 343-346):
sends the key and requests no refresh. -/
def volumeUpEffects : List Effect :=
  [Effect.remote "volume_up"]

/-- Embeds `RokuMediaPlayer.async_volume_down` (media_player.py lines 348-351). -/
def volumeDownEffects : List Effect :=
  [Effect.remote "volume_down"]

/-- Embeds `RokuMediaPlayer.search` (media_player.py lines 238-241): invokes the
vendor search call and requests no refresh. -/
def searchEffects (keyword : String) : List Effect :=
  [Effect.search keyword]

/-- Embeds `RokuMediaPlayer.async_play_media` (media_player.py lines 353-382):
invalid types log an error and return before any vendor call or refresh;
type `app` splits the media id on `","` and launches with an URL-escaped
deep-link content id when a second part exists; the HLS content type
launches the fixed `dev` app; type `channel` tunes. -/
def playMediaEffects (media_type media_id : String) : List Effect :=
  if ¬(media_type = MEDIA_TYPE_APP ∨ media_type = MEDIA_TYPE_CHANNEL
      ∨ media_type = HLS_CONTENT_TYPE) then
    [Effect.logError]
  else
    (if media_type = MEDIA_TYPE_APP then
      let media_array := pySplit media_id ','
      if media_array.length > 1 then
        [Effect.logInfo,
          Effect.launch (pyStrip (media_array.getD 0 ""))
            (some (urlQuote (pyStrip (media_array.getD 1 ""))))]
      else
        [Effect.logInfo, Effect.launch media_id none]
    else if media_type = HLS_CONTENT_TYPE then
      [Effect.logInfo, Effect.launch "dev" (some (urlQuote media_id))]
    else
      [Effect.logInfo, Effect.tune media_id])
    ++ [Effect.requestRefresh]

/-- Embeds `RokuMediaPlayer.async_select_source` (media_player.py lines 384-402):
sends the `home` key when the source is `"Home"`, then — unconditionally —
looks for the first installed app whose name or id equals the source and
launches it if found, and always requests one refresh. -/
def selectSourceEffects (s : Snapshot) (source : String) : List Effect :=
  (if source = "Home" then [Effect.remote "home"] else [])
  ++ (match s.apps.find? (fun a => source == a.name || source == a.app_id) with
      | some a => [Effect.launch a.app_id none]
      | none => [])
  ++ [Effect.requestRefresh]

/-- The nested loop of `RokuRemote.async_send_command` (remote.py lines
61-63): `numRepeats` passes, each sending every listed key in order. -/
def repeatKeys (command : List String) : Nat → List Effect
  | 0 => []
  | n + 1 => repeatKeys command n ++ command.map Effect.remote

/-- Embeds `RokuRemote.async_send_command` (remote.py lines 56-65): the key-send
passes followed by a single refresh request. -/
def sendCommandEffects (command : List String) (numRepeats : Nat) : List Effect :=
  repeatKeys command numRepeats ++ [Effect.requestRefresh]

/-- The two recognized vendor error kinds (`rokuecp.RokuConnectionError`
and `rokuecp.RokuError`). -/
inductive RokuErr where
  | connection
  | generic
deriving DecidableEq

/-- Embeds `roku_exception_handler` (__init__.py lines 44-57): the wrapper runs the
wrapped handler exactly once (it consumes one execution result — no local
retry), swallows both vendor error kinds, and logs an error only when the
entity is currently considered available.  The first component is what the
wrapper lets propagate to the host platform (always a normal return); the
second is whether an error was logged. -/
def roku_exception_handler (available : Bool) (result : Except RokuErr Unit) :
    Except RokuErr Unit × Bool :=
  match result with
  | Except.ok _ => (Except.ok (), false)
  | Except.error RokuErr.connection => (Except.ok (), available)
  | Except.error RokuErr.generic => (Except.ok (), available)

/-- Example snapshot: two installed apps, Netflix and Hulu. -/
def appsSnapshot : Snapshot :=
  { state := ⟨false⟩, app := none,
    apps := [⟨"Netflix", "1"⟩, ⟨"Hulu", "2"⟩], media := none, channel := none }

/-- Example snapshot: a single installed app named "Home" with id "11". -/
def homeAppSnapshot : Snapshot :=
  { state := ⟨false⟩, app := none,
    apps := [⟨"Home", "11"⟩], media := none, channel := none }

/-- Example snapshot: live media with a positive duration. -/
def liveMediaSnapshot : Snapshot :=
  { state := ⟨false⟩, app := some ⟨some "Netflix", some "12", false⟩,
    apps := [], media := some ⟨false, true, 100, 10, 5⟩, channel := none }

/-- C1: for every snapshot the derived playback state follows the spec's
precedence order with first match winning: standby, then missing app data,
then idle (power-saver name or screensaver flag), then home, then
paused/playing from active media, then "on" for a named app, else unknown. -/
theorem C1_state_follows_precedence : ∀ s : Snapshot, state s = stateSpec s := by
  intro s
  unfold state stateSpec
  cases hst : s.state.standby <;> simp [STATE_STANDBY]
  cases h : s.app with
  | none => simp
  | some a =>
    simp only []
    by_cases hps : a.name = some "Power Saver"
    · simp [hps, STATE_IDLE]
    · by_cases hsc : a.screensaver = true
      · simp [hps, hsc, STATE_IDLE]
      · simp only [Bool.not_eq_true] at hsc
        by_cases hr : a.name = some "Roku"
        · simp [hps, hsc, hr, STATE_HOME]
        · cases hm : s.media with
          | some m =>
            cases hp : m.paused <;>
              simp [hps, hsc, hr, STATE_PAUSED, STATE_PLAYING]
          | none =>
            cases hn : a.name with
            | none => simp [hps, hsc, hr, nameTruthy]
            | some n =>
              rw [hn] at hps hr
              simp only [Option.some.injEq] at hps hr
              by_cases hne : n = "" <;>
                simp [hps, hsc, hr, hne, nameTruthy, STATE_ON]

/-- Total: any two strings are comparable by the code-point order. -/
theorem charListLe_total : ∀ as bs : List Char,
    charListLe as bs = true ∨ charListLe bs as = true
  | [], _ => Or.inl rfl
  | _ :: _, [] => Or.inr rfl
  | a :: as, b :: bs => by
    rcases lt_trichotomy a b with h | h | h
    · left
      simp [charListLe, h]
    · subst h
      rcases charListLe_total as bs with ih | ih
      · left
        simp [charListLe, lt_irrefl, ih]
      · right
        simp [charListLe, lt_irrefl, ih]
    · right
      simp [charListLe, h]

/-- Transitivity of the code-point order. -/
theorem charListLe_trans : ∀ as bs cs : List Char,
    charListLe as bs = true → charListLe bs cs = true →
    charListLe as cs = true
  | [], _, _ => fun _ _ => rfl
  | _ :: _, [], _ => fun h _ => by simp [charListLe] at h
  | _ :: _, _ :: _, [] => fun _ h => by simp [charListLe] at h
  | a :: as, b :: bs, c :: cs => fun h1 h2 => by
    rcases lt_trichotomy a b with hab | hab | hab
    · rcases lt_trichotomy b c with hbc | hbc | hbc
      · simp [charListLe, lt_trans hab hbc]
      · subst hbc
        simp [charListLe, hab]
      · exfalso
        simp [charListLe, lt_asymm hbc, hbc] at h2
    · subst hab
      simp only [charListLe, lt_irrefl, if_false] at h1
      rcases lt_trichotomy a c with hac | hac | hac
      · simp [charListLe, hac]
      · subst hac
        simp only [charListLe, lt_irrefl, if_false] at h2 ⊢
        exact charListLe_trans as bs cs h1 h2
      · exfalso
        simp [charListLe, lt_asymm hac, hac] at h2
    · exfalso
      simp [charListLe, lt_asymm hab, hab] at h1

/-- Antisymmetry of the code-point order. -/
theorem charListLe_antisymm : ∀ as bs : List Char,
    charListLe as bs = true → charListLe bs as = true → as = bs
  | [], [] => fun _ _ => rfl
  | [], _ :: _ => fun _ h => by simp [charListLe] at h
  | _ :: _, [] => fun h _ => by simp [charListLe] at h
  | a :: as, b :: bs => fun h1 h2 => by
    rcases lt_trichotomy a b with hab | hab | hab
    · exfalso
      simp [charListLe, lt_asymm hab, hab] at h2
    · subst hab
      simp only [charListLe, lt_irrefl, if_false] at h1 h2
      rw [charListLe_antisymm as bs h1 h2]
    · exfalso
      simp [charListLe, lt_asymm hab, hab] at h1

/-- The relation `strLe` is total. -/
theorem strLe_total (a b : String) : (strLe a b || strLe b a) = true := by
  rcases charListLe_total a.data b.data with h | h <;> simp [strLe, h]

/-- The relation `strLe` is transitive. -/
theorem strLe_trans (a b c : String) :
    strLe a b = true → strLe b c = true → strLe a c = true :=
  charListLe_trans a.data b.data c.data

/-- The relation `strLe` is antisymmetric. -/
theorem strLe_antisymm (a b : String) :
    strLe a b = true → strLe b a = true → a = b := by
  intro h1 h2
  have h := charListLe_antisymm a.data b.data h1 h2
  cases a
  cases b
  exact congrArg String.mk h

/-- C9: for every snapshot, `source_list` starts with the fixed entry
"Home", and its remainder is a permutation of the installed app names
sorted ascending in the case-sensitive code-point string order; on the
example apps {Netflix, Hulu} it is exactly ["Home", "Hulu", "Netflix"]. -/
theorem C9_source_list_sorted : ∀ s : Snapshot,
    (source_list s).head? = some "Home"
    ∧ (source_list s).tail.Perm (s.apps.map (fun a => a.name))
    ∧ (source_list s).tail.Pairwise (fun a b => strLe a b = true)
    ∧ source_list appsSnapshot = ["Home", "Hulu", "Netflix"] := by
  intro s
  refine ⟨rfl, ?_, ?_, ?_⟩
  · simpa [source_list] using
      List.mergeSort_perm (s.apps.map (fun a => a.name)) strLe
  · simpa [source_list] using
      @List.sorted_mergeSort String strLe strLe_trans strLe_total
        (s.apps.map (fun a => a.name))
  · haveI i1 : IsTotal String (fun a b => strLe a b = true) :=
      ⟨fun a b => by
        rcases charListLe_total a.data b.data with h | h
        · exact Or.inl h
        · exact Or.inr h⟩
    haveI i2 : IsTrans String (fun a b => strLe a b = true) :=
      ⟨strLe_trans⟩
    haveI i3 : IsAntisymm String (fun a b => strLe a b = true) :=
      ⟨strLe_antisymm⟩
    have hd : (fun a b : String => decide (strLe a b = true)) = strLe := by
      funext a b
      cases h : strLe a b <;> simp [h]
    have h := List.mergeSort_eq_insertionSort
      (r := fun a b : String => strLe a b = true) ["Netflix", "Hulu"]
    rw [hd] at h
    have e1 : source_list appsSnapshot
        = "Home" :: List.mergeSort ["Netflix", "Hulu"] strLe := rfl
    rw [e1, h]
    decide

/-- C4: for every snapshot, media duration, position, and position
timestamp are present exactly when media data exists, is not flagged live,
and has strictly positive duration — and in that case they carry the
media's values; in every other case, live media included, all three are
absent (`none`), never zero. -/
theorem C4_media_metadata_trackable : ∀ s : Snapshot,
    ((media_duration s ≠ none ∧ media_position s ≠ none
        ∧ media_position_updated_at s ≠ none)
      ↔ ∃ m, s.media = some m ∧ m.live = false ∧ 0 < m.duration)
    ∧ (∀ m, s.media = some m → m.live = false → 0 < m.duration →
        media_duration s = some m.duration
        ∧ media_position s = some m.position
        ∧ media_position_updated_at s = some m.updated_at)
    ∧ (∀ m, s.media = some m → m.live = true →
        media_duration s = none ∧ media_position s = none
        ∧ media_position_updated_at s = none) := by
  intro s
  unfold media_duration media_position media_position_updated_at
    _media_playback_trackable
  cases hm : s.media with
  | none => simp
  | some m =>
    cases hl : m.live with
    | true => simp [hl]
    | false =>
      by_cases hd : 0 < m.duration
      · simp [hl, hd]
      · simp [hl, hd]
        omega

/-- C4 witness: on the live-media example snapshot all three media-metadata
fields are absent, and the trackability criterion does not hold. -/
theorem C4_witness :
    media_duration liveMediaSnapshot = none
    ∧ media_position liveMediaSnapshot = none
    ∧ media_position_updated_at liveMediaSnapshot = none :=
  (C4_media_metadata_trackable liveMediaSnapshot).2.2
    ⟨false, true, 100, 10, 5⟩ rfl rfl

/-- C10: for every snapshot, the media title is present exactly when the
active app id is the TV-tuner input "tvinput.dtv" and a channel with a
program title is present; any other running app — one actively playing
media included — reports no title, and when present the title is the
channel's program title. -/
theorem C10_media_title_tv_tuner_only : ∀ s : Snapshot,
    (media_title s ≠ none
      ↔ (app_id s = some "tvinput.dtv"
          ∧ ∃ c, s.channel = some c ∧ c.program_title ≠ none))
    ∧ (∀ c, app_id s = some "tvinput.dtv" → s.channel = some c →
        media_title s = c.program_title) := by
  intro s
  unfold media_title
  by_cases ha : app_id s = some "tvinput.dtv"
  · cases hc : s.channel with
    | none => simp [ha, hc]
    | some c =>
      cases ht : c.program_title with
      | none => simp [ha, hc, ht]
      | some t => simp [ha, hc, ht]
  · simp [ha]

/-- C10 witness: a snapshot running the TV tuner with a titled program
reports exactly that title. -/
theorem C10_witness :
    media_title
      { state := ⟨false⟩, app := some ⟨some "TV", some "tvinput.dtv", false⟩,
        apps := [], media := none,
        channel := some ⟨"14.1", some "KTV", some "News"⟩ }
      = some "News" :=
  (C10_media_title_tv_tuner_only _).2 ⟨"14.1", some "KTV", some "News"⟩
    rfl rfl

/-- The refresh count distributes over append. -/
theorem countRefresh_append (l1 l2 : List Effect) :
    countRefresh (l1 ++ l2) = countRefresh l1 + countRefresh l2 :=
  List.countP_append _ _ _

/-- A list of key sends holds no refresh request. -/
theorem countRefresh_map_remote (keys : List String) :
    countRefresh (keys.map Effect.remote) = 0 := by
  induction keys with
  | nil => rfl
  | cons k ks ih => simp [countRefresh, List.countP_cons, ih]

/-- The send-command loop requests no refresh. -/
theorem countRefresh_repeatKeys (cmds : List String) :
    ∀ n, countRefresh (repeatKeys cmds n) = 0
  | 0 => rfl
  | n + 1 => by
    simp [repeatKeys, countRefresh_append, countRefresh_repeatKeys cmds n,
      countRefresh_map_remote]

/-- Every effect of the send-command loop is a key send. -/
theorem countVendor_repeatKeys (cmds : List String) :
    ∀ n, (repeatKeys cmds n).countP (fun e => isVendorCall e)
      = n * cmds.length
  | 0 => by simp [repeatKeys]
  | n + 1 => by
    have hmap : (cmds.map Effect.remote).countP (fun e => isVendorCall e)
        = cmds.length := by
      induction cmds with
      | nil => rfl
      | cons k ks ih => simp [List.countP_cons, isVendorCall, ih]
    simp [repeatKeys, List.countP_append,
      countVendor_repeatKeys cmds n, hmap, Nat.succ_mul]

/-- The send-command loop is the `n`-fold repetition of one in-order pass
over the key list. -/
theorem repeatKeys_eq_flatten_replicate (cmds : List String) :
    ∀ n, repeatKeys cmds n
      = (List.replicate n (cmds.map Effect.remote)).flatten
  | 0 => rfl
  | n + 1 => by
    have hswap : ∀ (k : Nat) (p : List Effect),
        (List.replicate k p).flatten ++ p = p ++ (List.replicate k p).flatten := by
      intro k
      induction k with
      | zero => simp
      | succ k ih =>
        intro p
        simp only [List.replicate_succ, List.flatten_cons, List.append_assoc]
        rw [ih p]
    rw [List.replicate_succ, List.flatten_cons, repeatKeys,
      repeatKeys_eq_flatten_replicate cmds n, hswap]

/-- C5: for every key list and repeat count N ≥ 1, send_command issues the
listed keys exactly N times, each pass in list order (the effect list is
the N-fold repetition of the in-order pass, so the number of key sends is
N times the list length), followed by exactly one refresh request. -/
theorem C5_send_command_repeats (cmds : List String) (n : Nat)
    (_h : 1 ≤ n) :
    sendCommandEffects cmds n
      = (List.replicate n (cmds.map Effect.remote)).flatten
        ++ [Effect.requestRefresh]
    ∧ (sendCommandEffects cmds n).countP (fun e => isVendorCall e)
      = n * cmds.length
    ∧ countRefresh (sendCommandEffects cmds n) = 1
    ∧ (sendCommandEffects cmds n).getLast? = some Effect.requestRefresh := by
  refine ⟨?_, ?_, ?_, ?_⟩
  · rw [sendCommandEffects, repeatKeys_eq_flatten_replicate]
  · rw [sendCommandEffects, List.countP_append, countVendor_repeatKeys]
    simp [isVendorCall]
  · rw [sendCommandEffects, countRefresh_append, countRefresh_repeatKeys]
    rfl
  · simp [sendCommandEffects]

/-- C5 witness: the spec's example — three keys repeated twice yield the
six key sends in order up, up, select, up, up, select, then one refresh. -/
theorem C5_witness :
    sendCommandEffects ["up", "up", "select"] 2
      = (List.replicate 2 (["up", "up", "select"].map Effect.remote)).flatten
        ++ [Effect.requestRefresh]
    ∧ (sendCommandEffects ["up", "up", "select"] 2).countP
        (fun e => isVendorCall e) = 2 * 3
    ∧ countRefresh (sendCommandEffects ["up", "up", "select"] 2) = 1
    ∧ (sendCommandEffects ["up", "up", "select"] 2).getLast?
        = some Effect.requestRefresh :=
  C5_send_command_repeats ["up", "up", "select"] 2 (by decide)

/-- Splitting yields one part more than the number of separators. -/
theorem splitOnChar_length (sep : Char) : ∀ l : List Char,
    (splitOnChar sep l).length = l.count sep + 1
  | [] => by simp [splitOnChar]
  | c :: rest => by
    have ih := splitOnChar_length sep rest
    by_cases h : c = sep
    · subst h
      simp [splitOnChar, ih, List.count_cons]
    · cases hr : splitOnChar sep rest with
      | nil =>
        rw [hr] at ih
        simp at ih
      | cons hd tl =>
        rw [hr] at ih
        simp only [List.length_cons] at ih
        simp [splitOnChar, h, hr, List.count_cons,
          (show ¬sep = c from fun hh => h hh.symm)]
        omega

/-- The media id splits into more than one part exactly when it contains a
comma. -/
theorem pySplit_comma_iff (s : String) :
    1 < (pySplit s ',').length ↔ ',' ∈ s.data := by
  unfold pySplit
  rw [List.length_map, splitOnChar_length]
  constructor
  · intro h
    exact List.count_pos_iff.mp (by omega)
  · intro h
    have := List.count_pos_iff.mpr h
    omega

/-- C6: for play_media of type app, a media id containing a comma-separated
pair launches the app given by the first part with a `contentId` deep-link
parameter equal to the URL-escape of the second part, while a media id
with no comma launches that id with no parameters. -/
theorem C6_play_media_app_deeplink (mid : String) :
    (',' ∈ mid.data →
      playMediaEffects MEDIA_TYPE_APP mid
        = [Effect.logInfo,
           Effect.launch (pyStrip ((pySplit mid ',').getD 0 ""))
             (some (urlQuote (pyStrip ((pySplit mid ',').getD 1 "")))),
           Effect.requestRefresh])
    ∧ (',' ∉ mid.data →
      playMediaEffects MEDIA_TYPE_APP mid
        = [Effect.logInfo, Effect.launch mid none, Effect.requestRefresh]) := by
  constructor
  · intro h
    have hl : 1 < (pySplit mid ',').length := (pySplit_comma_iff mid).mpr h
    simp [playMediaEffects, MEDIA_TYPE_APP, MEDIA_TYPE_CHANNEL,
      HLS_CONTENT_TYPE, hl]
  · intro h
    have hl : ¬1 < (pySplit mid ',').length := fun hc =>
      h ((pySplit_comma_iff mid).mp hc)
    simp [playMediaEffects, MEDIA_TYPE_APP, MEDIA_TYPE_CHANNEL,
      HLS_CONTENT_TYPE, hl]

/-- C6 witness: the spec's example — media id "12,ABC123" launches app "12"
with contentId "ABC123" (whose URL-escape is itself). -/
theorem C6_witness :
    (',' ∈ "12,ABC123".data)
    ∧ playMediaEffects MEDIA_TYPE_APP "12,ABC123"
      = [Effect.logInfo, Effect.launch "12" (some "ABC123"),
         Effect.requestRefresh] := by
  refine ⟨by decide, ?_⟩
  have h := (C6_play_media_app_deeplink "12,ABC123").1 (by decide)
  rw [h]
  decide

/-- C8: for every media type other than app, channel, and the side-loaded
HLS stream type, play_media only logs an error: it makes no vendor-client
call and requests no refresh. -/
theorem C8_play_media_invalid_type (mt mid : String)
    (h1 : mt ≠ MEDIA_TYPE_APP) (h2 : mt ≠ MEDIA_TYPE_CHANNEL)
    (h3 : mt ≠ HLS_CONTENT_TYPE) :
    playMediaEffects mt mid = [Effect.logError]
    ∧ (∀ e ∈ playMediaEffects mt mid, isVendorCall e = false)
    ∧ countRefresh (playMediaEffects mt mid) = 0 := by
  have he : playMediaEffects mt mid = [Effect.logError] := by
    simp [playMediaEffects, h1, h2, h3]
  refine ⟨he, ?_, ?_⟩
  · rw [he]
    intro e hmem
    simp only [List.mem_singleton] at hmem
    subst hmem
    rfl
  · rw [he]
    rfl

/-- C8 witness: play_media with type "music" only logs an error and
requests no refresh. -/
theorem C8_witness :
    playMediaEffects "music" "song-1" = [Effect.logError]
    ∧ countRefresh (playMediaEffects "music" "song-1") = 0 :=
  ⟨(C8_play_media_invalid_type "music" "song-1" (by decide) (by decide)
      (by decide)).1,
   (C8_play_media_invalid_type "music" "song-1" (by decide) (by decide)
      (by decide)).2.2⟩

/-- C2 counterexample: with an installed app named "Home" (id "11"),
select_source("Home") sends the "home" key, then additionally launches
that app — the effect list is not the key-send-plus-refresh that the
claim's else-dichotomy prescribes for source = "Home". -/
theorem C2_counterexample :
    selectSourceEffects homeAppSnapshot "Home"
      = [Effect.remote "home", Effect.launch "11" none,
         Effect.requestRefresh]
    ∧ selectSourceEffects homeAppSnapshot "Home"
      ≠ [Effect.remote "home", Effect.requestRefresh] := by
  refine ⟨?_, ?_⟩ <;> decide

/-- select_source always requests exactly one refresh, whatever the source
and whatever app lookup succeeds. -/
theorem countRefresh_selectSource (s : Snapshot) (src : String) :
    countRefresh (selectSourceEffects s src) = 1 := by
  by_cases h : src = "Home"
  · subst h
    cases hf : s.apps.find?
        (fun x => "Home" == x.name || "Home" == x.app_id) <;>
      simp [selectSourceEffects, hf, countRefresh, List.countP_cons,
        List.countP_append]
  · cases hf : s.apps.find? (fun x => src == x.name || src == x.app_id) <;>
      simp [selectSourceEffects, h, hf, countRefresh, List.countP_cons,
        List.countP_append]

/-- C2 (amended): select_source always requests exactly one refresh; when
the source is "Home" the "home" key is sent (and no key is sent
otherwise); and — not as an else-branch but unconditionally — the first
installed app whose name or id equals the source is launched if one
exists, and no launch happens if none does. -/
theorem C2_select_source : ∀ (s : Snapshot) (src : String),
    (src = "Home" → Effect.remote "home" ∈ selectSourceEffects s src)
    ∧ (src ≠ "Home" → ∀ k, Effect.remote k ∉ selectSourceEffects s src)
    ∧ countRefresh (selectSourceEffects s src) = 1
    ∧ (∀ a, s.apps.find? (fun x => src == x.name || src == x.app_id)
          = some a →
        Effect.launch a.app_id none ∈ selectSourceEffects s src)
    ∧ (s.apps.find? (fun x => src == x.name || src == x.app_id) = none →
        ∀ i c, Effect.launch i c ∉ selectSourceEffects s src) := by
  intro s src
  refine ⟨?_, ?_, countRefresh_selectSource s src, ?_, ?_⟩
  · intro h
    simp [selectSourceEffects, h]
  · intro h k
    cases hf : s.apps.find? (fun x => src == x.name || src == x.app_id) <;>
      simp [selectSourceEffects, h, hf]
  · intro a hf
    by_cases h : src = "Home"
    · subst h
      simp [selectSourceEffects, hf]
    · simp [selectSourceEffects, h, hf]
  · intro hf i c
    by_cases h : src = "Home"
    · subst h
      simp [selectSourceEffects, hf]
    · simp [selectSourceEffects, h, hf]

/-- C2 witness: on the example snapshot whose only installed app is named
"Home", selecting "Home" both sends the "home" key and launches app
"11", with exactly one refresh. -/
theorem C2_witness :
    Effect.remote "home" ∈ selectSourceEffects homeAppSnapshot "Home"
    ∧ Effect.launch "11" none ∈ selectSourceEffects homeAppSnapshot "Home"
    ∧ countRefresh (selectSourceEffects homeAppSnapshot "Home") = 1 :=
  ⟨(C2_select_source homeAppSnapshot "Home").1 rfl,
   (C2_select_source homeAppSnapshot "Home").2.2.2.1 ⟨"Home", "11"⟩
     (by decide),
   (C2_select_source homeAppSnapshot "Home").2.2.1⟩

/-- C3 counterexample: the search command — which is neither volume_up nor
volume_down, and whose missing refresh the spec does not note — issues
zero refresh requests, not exactly one. -/
theorem C3_counterexample :
    countRefresh (searchEffects "roku") = 0
    ∧ countRefresh (searchEffects "roku") ≠ 1 := by
  refine ⟨?_, ?_⟩ <;> decide

/-- C3 (amended): volume_up, volume_down, and also search never issue a
refresh request; the conditional commands pause, play, and play/pause
issue exactly one refresh when their state precondition holds and none
otherwise; play_media issues exactly one refresh for a valid media type
and none for an invalid one; and every other dispatcher command — turn
on/off, previous/next track, mute, select_source, send_command — issues
exactly one refresh per invocation. -/
theorem C3_refresh_discipline :
    ∀ (s : Snapshot) (k src mt mid : String) (cmds : List String) (n : Nat),
    countRefresh volumeUpEffects = 0
    ∧ countRefresh volumeDownEffects = 0
    ∧ countRefresh (searchEffects k) = 0
    ∧ countRefresh turnOnEffects = 1
    ∧ countRefresh turnOffEffects = 1
    ∧ countRefresh previousTrackEffects = 1
    ∧ countRefresh nextTrackEffects = 1
    ∧ countRefresh muteVolumeEffects = 1
    ∧ countRefresh (selectSourceEffects s src) = 1
    ∧ countRefresh (sendCommandEffects cmds n) = 1
    ∧ ((mt = MEDIA_TYPE_APP ∨ mt = MEDIA_TYPE_CHANNEL
          ∨ mt = HLS_CONTENT_TYPE) →
        countRefresh (playMediaEffects mt mid) = 1)
    ∧ (¬(mt = MEDIA_TYPE_APP ∨ mt = MEDIA_TYPE_CHANNEL
          ∨ mt = HLS_CONTENT_TYPE) →
        countRefresh (playMediaEffects mt mid) = 0)
    ∧ (state s = some STATE_STANDBY ∨ state s = some STATE_PAUSED →
        countRefresh (mediaPauseEffects s) = 0)
    ∧ (¬(state s = some STATE_STANDBY ∨ state s = some STATE_PAUSED) →
        countRefresh (mediaPauseEffects s) = 1)
    ∧ (state s = some STATE_STANDBY ∨ state s = some STATE_PLAYING →
        countRefresh (mediaPlayEffects s) = 0)
    ∧ (¬(state s = some STATE_STANDBY ∨ state s = some STATE_PLAYING) →
        countRefresh (mediaPlayEffects s) = 1)
    ∧ (state s = some STATE_STANDBY →
        countRefresh (mediaPlayPauseEffects s) = 0)
    ∧ (state s ≠ some STATE_STANDBY →
        countRefresh (mediaPlayPauseEffects s) = 1) := by
  intro s k src mt mid cmds n
  refine ⟨rfl, rfl, rfl, rfl, rfl, rfl, rfl, rfl,
    countRefresh_selectSource s src, ?_, ?_, ?_, ?_, ?_, ?_, ?_, ?_, ?_⟩
  · rw [sendCommandEffects, countRefresh_append, countRefresh_repeatKeys]
    rfl
  · intro h
    rcases h with h | h | h <;> subst h
    · simp only [playMediaEffects]
      rw [if_neg (by simp [MEDIA_TYPE_APP, MEDIA_TYPE_CHANNEL,
        HLS_CONTENT_TYPE])]
      by_cases hl : (pySplit mid ',').length > 1 <;>
        simp [hl, MEDIA_TYPE_APP, MEDIA_TYPE_CHANNEL, HLS_CONTENT_TYPE,
          countRefresh, List.countP_append, List.countP_cons]
    · simp [playMediaEffects, MEDIA_TYPE_APP, MEDIA_TYPE_CHANNEL,
        HLS_CONTENT_TYPE, countRefresh, List.countP_append,
        List.countP_cons]
    · simp [playMediaEffects, MEDIA_TYPE_APP, MEDIA_TYPE_CHANNEL,
        HLS_CONTENT_TYPE, countRefresh, List.countP_append,
        List.countP_cons]
  · intro h
    simp [playMediaEffects, h, countRefresh, List.countP_cons]
  · intro h
    simp [mediaPauseEffects, h]
    rfl
  · intro h
    simp [mediaPauseEffects, h]
    rfl
  · intro h
    simp [mediaPlayEffects, h]
    rfl
  · intro h
    simp [mediaPlayEffects, h]
    rfl
  · intro h
    simp [mediaPlayPauseEffects, h]
    rfl
  · intro h
    simp [mediaPlayPauseEffects, h]
    rfl

/-- C3 witness: concrete instances — search and volume_up issue no
refresh; a valid play_media and an invalid play_media issue one and zero
refreshes respectively. -/
theorem C3_witness :
    countRefresh (searchEffects "roku") = 0
    ∧ countRefresh volumeUpEffects = 0
    ∧ countRefresh (playMediaEffects "channel" "14.1") = 1
    ∧ countRefresh (playMediaEffects "music" "x") = 0 :=
  ⟨(C3_refresh_discipline homeAppSnapshot "roku" "s" "channel" "14.1" [] 0).2.2.1,
   (C3_refresh_discipline homeAppSnapshot "roku" "s" "channel" "14.1" [] 0).1,
   (C3_refresh_discipline homeAppSnapshot "roku" "s" "channel" "14.1"
     [] 0).2.2.2.2.2.2.2.2.2.2.1 (Or.inr (Or.inl rfl)),
   (C3_refresh_discipline homeAppSnapshot "roku" "s" "music" "x"
     [] 0).2.2.2.2.2.2.2.2.2.2.2.1 (by decide)⟩

/-- C7: for both recognized vendor error kinds, the command wrapper lets
no exception propagate to the host platform (the wrapped invocation always
returns normally), and it logs an error exactly when the entity is
currently considered available; a normal return logs nothing. -/
theorem C7_exception_handler :
    ∀ (available : Bool) (r : Except RokuErr Unit),
    (roku_exception_handler available r).1 = Except.ok ()
    ∧ (∀ e, r = Except.error e →
        ((roku_exception_handler available r).2 = true
          ↔ available = true))
    ∧ (r = Except.ok () → (roku_exception_handler available r).2 = false) := by
  intro available r
  refine ⟨?_, ?_, ?_⟩
  · cases r with
    | ok u => rfl
    | error e => cases e <;> rfl
  · intro e he
    subst he
    cases e <;> simp [roku_exception_handler]
  · intro he
    subst he
    rfl

/-- C7 witness: an available entity hitting a connection error propagates
nothing and logs the error; the same error while unavailable logs
nothing. -/
theorem C7_witness :
    (roku_exception_handler true (Except.error RokuErr.connection)).1
      = Except.ok ()
    ∧ (roku_exception_handler true (Except.error RokuErr.connection)).2
      = true
    ∧ (roku_exception_handler false (Except.error RokuErr.generic)).2
      = false :=
  ⟨(C7_exception_handler true (Except.error RokuErr.connection)).1,
   ((C7_exception_handler true (Except.error RokuErr.connection)).2.1
     RokuErr.connection rfl).mpr rfl,
   by
    have h := (C7_exception_handler false (Except.error RokuErr.generic)).2.1
      RokuErr.generic rfl
    cases hb : (roku_exception_handler false
        (Except.error RokuErr.generic)).2
    · rfl
    · exact absurd (h.mp hb) (by decide)⟩
